import Mathlib

/-!
Shallow embedding of the MCP client session context
(src/examples/main/src/utils/mcp.context.tsx).

The provider keeps six pieces of React state: client, transport,
isConnected, elicitationRequest, elicitationResolver and sessionId.  We
model them as fields of MCPState, together with three ghost components
that make the JavaScript runtime observable to the proofs:

* promises: the heap of promises created by the elicitation request
  handler, keyed by allocation order; resolving an already settled
  promise is a no-op, matching JavaScript promise semantics;
* nextPromiseId: allocation counter for that heap;
* transportsCreated: counts evaluations of
  "new StreamableHTTPClientTransport".

External collaborators (the transport handshake, transport.close, the
server answering client.request, the Ajv validator) are modelled by
explicit outcome parameters; the functions below are the code that runs
between those suspension points.
-/

namespace MCP

/-- Form content: the text-input state of the elicitation form, one
string per schema property key. -/
abbrev FormState := List (String × String)

/-- The value handed to the elicitation resolver by the modal: an accept
decision carrying content, or a cancel decision. -/
inductive ElicitResponse where
  | accept (content : FormState)
  | cancel
  deriving DecidableEq

/-- A server-initiated elicitation request.  The handler treats it as
opaque; only the modal reads fields out of it, so a message tag is all
the model needs to distinguish requests. -/
structure ElicitRequest where
  message : String
  deriving DecidableEq

/-- State of a JavaScript promise created by the elicitation handler. -/
inductive PromiseState where
  | pending
  | resolved (response : ElicitResponse)
  deriving DecidableEq

/-- The provider state.  The first six fields are the useState hooks of
MCPProvider; the last three are ghost instrumentation of the runtime. -/
structure MCPState where
  client : Option Nat
  transport : Option Nat
  isConnected : Bool
  elicitationRequest : Option ElicitRequest
  elicitationResolver : Option Nat
  sessionId : Option String
  promises : List (Nat × PromiseState)
  nextPromiseId : Nat
  transportsCreated : Nat
  deriving DecidableEq

/-- Outcome of awaiting newClient.connect(newTransport): a successful
handshake reports an optional session id, a failed one throws. -/
inductive HandshakeResult where
  | success (sid : Option String)
  | failure
  deriving DecidableEq

/-- First half of connect(), up to the awaited handshake: the guard
"if (client) return" and the creation of the client and transport pair.
Returns the fresh transport handle, or none when the guard fired.  React
state is untouched here: the setters only run after the await. -/
def connectPhase1 (s : MCPState) : MCPState × Option Nat :=
  if s.client.isSome then (s, none)
  else ({ s with transportsCreated := s.transportsCreated + 1 }, some s.transportsCreated)

/-- Second half of connect(): on handshake success install client,
transport, the connected flag and the session id reported by the
transport; on failure the catch block logs and resets client, transport
and the connected flag.  Nothing is thrown onward in either case. -/
def connectPhase2 (pending : Option Nat) (hs : HandshakeResult) (s : MCPState) : MCPState :=
  match pending, hs with
  | none, _ => s
  | some t, HandshakeResult.success sid =>
      { s with client := some t, transport := some t, isConnected := true, sessionId := sid }
  | some _, HandshakeResult.failure =>
      { s with client := none, transport := none, isConnected := false }

/-- connect() run to completion with a given handshake outcome.  The
Except component is the promise returned to the caller: the catch block
swallows every error, so it always resolves. -/
def connect (hs : HandshakeResult) (s : MCPState) : MCPState × Except String Unit :=
  (connectPhase2 (connectPhase1 s).2 hs (connectPhase1 s).1, Except.ok ())

/-- Outcome of awaiting transport.close() inside disconnect(). -/
inductive CloseResult where
  | success
  | failure
  deriving DecidableEq

/-- disconnect(): a no-op without a transport; otherwise close the
transport and, when close succeeded, clear client, transport and the
connected flag.  A close error is only logged and the setters are
skipped, so the state is left as it was. -/
def disconnect (c : CloseResult) (s : MCPState) : MCPState :=
  match s.transport with
  | none => s
  | some _ =>
      match c with
      | CloseResult.success => { s with client := none, transport := none, isConnected := false }
      | CloseResult.failure => s

/-- newTransport.onclose: clears only the connected flag and the session
id; the client and transport references are left in place. -/
def transportOnClose (s : MCPState) : MCPState :=
  { s with isConnected := false, sessionId := none }

/-- Look a promise up in the promise heap. -/
def findPromise : List (Nat × PromiseState) → Nat → Option PromiseState
  | [], _ => none
  | (i, st) :: rest, pid => if i = pid then some st else findPromise rest pid

/-- Resolve a promise: a pending promise becomes resolved with the given
response; an already settled promise is left as it is, because later
resolve calls on a JavaScript promise are ignored. -/
def resolvePromise : List (Nat × PromiseState) → Nat → ElicitResponse → List (Nat × PromiseState)
  | [], _, _ => []
  | (i, st) :: rest, pid, d =>
      if i = pid then
        (i, match st with
            | PromiseState.pending => PromiseState.resolved d
            | PromiseState.resolved d0 => PromiseState.resolved d0) :: resolvePromise rest pid d
      else (i, st) :: resolvePromise rest pid d

/-- The ElicitRequestSchema request handler: allocate a fresh promise for
the handler to suspend on, and unconditionally install the request and a
resolver for that promise.  There is no check for an already active
slot.  Returns the id of the promise the server request now awaits. -/
def elicitRequestHandler (request : ElicitRequest) (s : MCPState) : MCPState × Nat :=
  ({ s with elicitationRequest := some request,
            elicitationResolver := some s.nextPromiseId,
            promises := s.promises ++ [(s.nextPromiseId, PromiseState.pending)],
            nextPromiseId := s.nextPromiseId + 1 }, s.nextPromiseId)

/-- The resolver closure installed by the handler: resolve the captured
promise, then clear elicitationRequest and elicitationResolver. -/
def elicitationResolverRun (pid : Nat) (response : ElicitResponse) (s : MCPState) : MCPState :=
  { s with promises := resolvePromise s.promises pid response,
           elicitationRequest := none,
           elicitationResolver := none }

/-- A decision arriving from the modal: the modal is rendered only while
both elicitationRequest and elicitationResolver are set, and its submit
and cancel callbacks invoke the stored resolver closure. -/
def modalDecide (response : ElicitResponse) (s : MCPState) : MCPState :=
  match s.elicitationRequest, s.elicitationResolver with
  | some _, some pid => elicitationResolverRun pid response s
  | _, _ => s

/-- Parameter shapes used by the six protocol operations. -/
inductive ReqParams where
  | empty
  | nameArgs (name : String) (args : List (String × String))
  | uri (u : String)
  deriving DecidableEq

/-- A request as submitted to client.request. -/
structure SentRequest where
  method : String
  params : ReqParams
  deriving DecidableEq

/-- The only error the public operations throw themselves. -/
inductive MCPError where
  | notConnected
  deriving DecidableEq

/-- listTools: throw "Not connected" without a client, else submit a
tools/list request. -/
def listTools (s : MCPState) : Except MCPError SentRequest :=
  match s.client with
  | none => Except.error MCPError.notConnected
  | some _ => Except.ok { method := "tools/list", params := ReqParams.empty }

/-- listPrompts: throw "Not connected" without a client, else submit a
prompts/list request. -/
def listPrompts (s : MCPState) : Except MCPError SentRequest :=
  match s.client with
  | none => Except.error MCPError.notConnected
  | some _ => Except.ok { method := "prompts/list", params := ReqParams.empty }

/-- getPrompt: throw "Not connected" without a client, else submit a
prompts/get request with name and arguments. -/
def getPrompt (name : String) (args : List (String × String)) (s : MCPState) :
    Except MCPError SentRequest :=
  match s.client with
  | none => Except.error MCPError.notConnected
  | some _ => Except.ok { method := "prompts/get", params := ReqParams.nameArgs name args }

/-- listResources: throw "Not connected" without a client, else submit a
resources/list request. -/
def listResources (s : MCPState) : Except MCPError SentRequest :=
  match s.client with
  | none => Except.error MCPError.notConnected
  | some _ => Except.ok { method := "resources/list", params := ReqParams.empty }

/-- readResource: throw "Not connected" without a client, else submit a
resources/read request with the uri. -/
def readResource (uri : String) (s : MCPState) : Except MCPError SentRequest :=
  match s.client with
  | none => Except.error MCPError.notConnected
  | some _ => Except.ok { method := "resources/read", params := ReqParams.uri uri }

/-- callTool: throw "Not connected" without a client, else submit a
tools/call request with name and arguments. -/
def callTool (name : String) (args : List (String × String)) (s : MCPState) :
    Except MCPError SentRequest :=
  match s.client with
  | none => Except.error MCPError.notConnected
  | some _ => Except.ok { method := "tools/call", params := ReqParams.nameArgs name args }

/-- The ResourceListChangedNotificationSchema handler, parameterised by
the outcome of the awaited resources/list request.  Besides the provider
state it returns the list of requests it issued and the error it let
escape: the catch block turns a failure into a console warning, so no
error ever escapes. -/
def resourceListChangedHandler (res : Except String Nat) (s : MCPState) :
    MCPState × List SentRequest × Option String :=
  match res with
  | Except.ok _ => (s, [{ method := "resources/list", params := ReqParams.empty }], none)
  | Except.error _ => (s, [{ method := "resources/list", params := ReqParams.empty }], none)

/-- Outcome of the Ajv compile-and-validate step inside handleSubmit. -/
inductive AjvOutcome where
  | valid
  | invalid
  | threw
  deriving DecidableEq

/-- ElicitationForm.handleSubmit: validate the form state with Ajv and
call onSubmit with the state in every branch — a failed validation still
submits the raw data, and a throwing validator is caught and submits as
well.  The Except component records any error allowed to escape. -/
def handleSubmit (outcome : AjvOutcome) (state : FormState) : Except String FormState :=
  match outcome with
  | AjvOutcome.valid => Except.ok state
  | AjvOutcome.invalid => Except.ok state
  | AjvOutcome.threw => Except.ok state

/-- The modal wires onSubmit to an accept decision carrying the content. -/
def onSubmitAction (content : FormState) : ElicitResponse :=
  ElicitResponse.accept content

/-- The full submit path: handleSubmit followed by the modal handing the
decision to the stored resolver closure. -/
def elicitationFormSubmit (outcome : AjvOutcome) (state : FormState) (s : MCPState) : MCPState :=
  match handleSubmit outcome state with
  | Except.ok content => modalDecide (onSubmitAction content) s
  | Except.error _ => s

/-- Absence of a value, and the literal empty object, as resolved by the
stub operations of the default context. -/
inductive JSVal where
  | undefinedV
  | emptyObject
  deriving DecidableEq

/-- The record stored in the React context. -/
structure MCPContextVal where
  client : Option Nat
  transport : Option Nat
  isConnected : Bool
  connect : Unit → Except MCPError JSVal
  disconnect : Unit → Except MCPError JSVal
  listTools : Unit → Except MCPError JSVal
  listPrompts : Unit → Except MCPError JSVal
  getPrompt : String → List (String × String) → Except MCPError JSVal
  listResources : Unit → Except MCPError JSVal
  readResource : String → Except MCPError JSVal
  callTool : String → List (String × String) → Except MCPError JSVal
  sessionId : Option String

/-- The default value passed to createContext: null references, a false
connected flag, async stubs resolving to undefined (connect and
disconnect) or to an empty object literal (the six protocol operations),
and no session id field. -/
def defaultMCPContext : MCPContextVal where
  client := none
  transport := none
  isConnected := false
  connect := fun _ => Except.ok JSVal.undefinedV
  disconnect := fun _ => Except.ok JSVal.undefinedV
  listTools := fun _ => Except.ok JSVal.emptyObject
  listPrompts := fun _ => Except.ok JSVal.emptyObject
  getPrompt := fun _ _ => Except.ok JSVal.emptyObject
  listResources := fun _ => Except.ok JSVal.emptyObject
  readResource := fun _ => Except.ok JSVal.emptyObject
  callTool := fun _ _ => Except.ok JSVal.emptyObject
  sessionId := none

/-- useMCP = useContext(MCPContext): the provided value when rendered
under a provider, otherwise the default context value. -/
def useMCP (provided : Option MCPContextVal) : MCPContextVal :=
  provided.getD defaultMCPContext

/-- The state the provider mounts with: every reference empty. -/
def initialState : MCPState where
  client := none
  transport := none
  isConnected := false
  elicitationRequest := none
  elicitationResolver := none
  sessionId := none
  promises := []
  nextPromiseId := 0
  transportsCreated := 0

/-- The state after one successful connect() from the mount state. -/
def readyState : MCPState :=
  (connect (HandshakeResult.success (some "s0")) initialState).1

/-- readyState with one elicitation slot active: promise 0 pending. -/
def slotState : MCPState :=
  (elicitRequestHandler (ElicitRequest.mk "need-input") readyState).1

/-- Appending fresh promises to the heap does not change the result of
looking up a promise that is already present. -/
theorem findPromise_append (ps l : List (Nat × PromiseState)) (pid : Nat) (st : PromiseState)
    (h : findPromise ps pid = some st) : findPromise (ps ++ l) pid = some st := by
  induction ps with
  | nil => simp [findPromise] at h
  | cons e rest ih =>
      obtain ⟨i, st0⟩ := e
      by_cases hc : i = pid
      · simp [findPromise, hc] at h ⊢
        exact h
      · simp only [List.cons_append, findPromise, if_neg hc] at h ⊢
        exact ih h

/-- Resolving a pending promise makes its lookup report the response. -/
theorem findPromise_resolvePromise (ps : List (Nat × PromiseState)) (pid : Nat)
    (d : ElicitResponse) (h : findPromise ps pid = some PromiseState.pending) :
    findPromise (resolvePromise ps pid d) pid = some (PromiseState.resolved d) := by
  induction ps with
  | nil => simp [findPromise] at h
  | cons e rest ih =>
      obtain ⟨i, st0⟩ := e
      by_cases hc : i = pid
      · subst hc
        simp only [findPromise, if_pos rfl] at h
        injection h with h0
        subst h0
        simp [findPromise, resolvePromise]
      · simp only [findPromise, resolvePromise, if_neg hc] at h ⊢
        exact ih h

/-- Resolving a promise a second time is a no-op, whatever the second
response is: the heap is unchanged. -/
theorem resolvePromise_idem (ps : List (Nat × PromiseState)) (pid : Nat) (d d' : ElicitResponse) :
    resolvePromise (resolvePromise ps pid d) pid d' = resolvePromise ps pid d := by
  induction ps with
  | nil => rfl
  | cons e rest ih =>
      obtain ⟨i, st0⟩ := e
      by_cases hc : i = pid
      · subst hc
        cases st0 <;> simp [resolvePromise, ih]
      · simp [resolvePromise, hc, ih]

/-- Claim C1, counterexample: with the slot already holding the
need-input request and pending promise 0, a second elicitation request
does not fail — the handler replaces the slot with the new request and a
fresh resolver, and the first promise is left pending, so the active
slot is neither protected by a concurrent-elicitation error nor left
untouched. -/
theorem concurrent_offer_overwrites_cex :
    slotState.elicitationRequest = some (ElicitRequest.mk "need-input") ∧
    (elicitRequestHandler (ElicitRequest.mk "second") slotState).1.elicitationRequest
      = some (ElicitRequest.mk "second") ∧
    some (ElicitRequest.mk "second") ≠ some (ElicitRequest.mk "need-input") ∧
    (elicitRequestHandler (ElicitRequest.mk "second") slotState).1.elicitationResolver
      = some 1 ∧
    findPromise (elicitRequestHandler (ElicitRequest.mk "second") slotState).1.promises 0
      = some PromiseState.pending := by
  refine ⟨rfl, rfl, ?_, rfl, rfl⟩
  decide

/-- Claim C1, amended: an elicitation request arriving while a slot is
already active (request and resolver set, its promise pending) is never
rejected — the handler unconditionally installs the new request and a
fresh resolver, silently overwriting the slot, while the promise of the
displaced slot stays pending, never resolved or rejected by this path. -/
theorem second_offer_installs_new_slot (r0 r : ElicitRequest) (p0 : Nat) (s : MCPState)
    (hreq : s.elicitationRequest = some r0)
    (hres : s.elicitationResolver = some p0)
    (hp : findPromise s.promises p0 = some PromiseState.pending) :
    (elicitRequestHandler r s).1.elicitationRequest = some r ∧
    (elicitRequestHandler r s).1.elicitationResolver = some s.nextPromiseId ∧
    findPromise (elicitRequestHandler r s).1.promises p0 = some PromiseState.pending := by
  refine ⟨rfl, rfl, ?_⟩
  exact findPromise_append s.promises _ p0 _ hp

/-- Witness for the amended claim C1, at the concrete active-slot state. -/
theorem second_offer_installs_new_slot_witness :
    (elicitRequestHandler (ElicitRequest.mk "r2") slotState).1.elicitationRequest
      = some (ElicitRequest.mk "r2") ∧
    (elicitRequestHandler (ElicitRequest.mk "r2") slotState).1.elicitationResolver
      = some slotState.nextPromiseId ∧
    findPromise (elicitRequestHandler (ElicitRequest.mk "r2") slotState).1.promises 0
      = some PromiseState.pending :=
  second_offer_installs_new_slot (ElicitRequest.mk "need-input") (ElicitRequest.mk "r2") 0
    slotState (by decide) (by decide) (by decide)

/-- Claim C2, counterexample: from the concrete state with an active
elicitation slot, a successful disconnect() ends disconnected with the
references cleared, yet the slot is not invalidated — its request and
resolver survive and its promise is still pending, so nothing rejected
the suspended computation with a session-closed error. -/
theorem disconnect_leaves_elicitation_pending_cex :
    (disconnect CloseResult.success slotState).isConnected = false ∧
    (disconnect CloseResult.success slotState).client = none ∧
    (disconnect CloseResult.success slotState).transport = none ∧
    (disconnect CloseResult.success slotState).elicitationRequest
      = some (ElicitRequest.mk "need-input") ∧
    (disconnect CloseResult.success slotState).elicitationResolver = some 0 ∧
    findPromise (disconnect CloseResult.success slotState).promises 0
      = some PromiseState.pending := by
  refine ⟨rfl, rfl, rfl, rfl, rfl, rfl⟩

/-- Claim C2, amended: disconnect() with a held transport, when close
succeeds, clears the client and transport references and the connected
flag, but performs no invalidation of suspended work: the elicitation
request, the stored resolver and the whole promise heap are left exactly
as they were. -/
theorem disconnect_clears_refs_not_slot (s : MCPState) (t : Nat)
    (h : s.transport = some t) :
    (disconnect CloseResult.success s).client = none ∧
    (disconnect CloseResult.success s).transport = none ∧
    (disconnect CloseResult.success s).isConnected = false ∧
    (disconnect CloseResult.success s).elicitationRequest = s.elicitationRequest ∧
    (disconnect CloseResult.success s).elicitationResolver = s.elicitationResolver ∧
    (disconnect CloseResult.success s).promises = s.promises := by
  simp [disconnect, h]

/-- Witness for the amended claim C2, at the concrete active-slot state. -/
theorem disconnect_clears_refs_not_slot_witness :
    (disconnect CloseResult.success slotState).client = none ∧
    (disconnect CloseResult.success slotState).transport = none ∧
    (disconnect CloseResult.success slotState).isConnected = false ∧
    (disconnect CloseResult.success slotState).elicitationRequest
      = slotState.elicitationRequest ∧
    (disconnect CloseResult.success slotState).elicitationResolver
      = slotState.elicitationResolver ∧
    (disconnect CloseResult.success slotState).promises = slotState.promises :=
  disconnect_clears_refs_not_slot slotState 0 (by decide)

/-- Claim C3, counterexample: a connect() whose handshake fails resolves
normally — the promise returned to the caller is ok, not a rejection —
and the resulting fields are the disconnected configuration, with no
distinct failed state observable. -/
theorem connect_failure_resolves_cex :
    (connect HandshakeResult.failure initialState).2 = Except.ok () ∧
    (connect HandshakeResult.failure initialState).1.client = none ∧
    (connect HandshakeResult.failure initialState).1.transport = none ∧
    (connect HandshakeResult.failure initialState).1.isConnected = false := by
  refine ⟨rfl, rfl, rfl, rfl⟩

/-- Claim C3, amended: when the handshake fails, connect() catches the
error, logs it, discards the client and transport references and clears
the connected flag, and then resolves normally — no HandshakeFailed
rejection reaches the caller, the resulting fields are those of the
disconnected configuration, and no retry happens: exactly one transport
was created by the call. -/
theorem connect_failure_swallows (s : MCPState) (h : s.client = none) :
    (connect HandshakeResult.failure s).2 = Except.ok () ∧
    (connect HandshakeResult.failure s).1.client = none ∧
    (connect HandshakeResult.failure s).1.transport = none ∧
    (connect HandshakeResult.failure s).1.isConnected = false ∧
    (connect HandshakeResult.failure s).1.transportsCreated = s.transportsCreated + 1 := by
  simp [connect, connectPhase1, connectPhase2, h]

/-- Witness for the amended claim C3, at the mount state. -/
theorem connect_failure_swallows_witness :
    (connect HandshakeResult.failure initialState).2 = Except.ok () ∧
    (connect HandshakeResult.failure initialState).1.client = none ∧
    (connect HandshakeResult.failure initialState).1.transport = none ∧
    (connect HandshakeResult.failure initialState).1.isConnected = false ∧
    (connect HandshakeResult.failure initialState).1.transportsCreated
      = initialState.transportsCreated + 1 :=
  connect_failure_swallows initialState (by decide)

/-- Claim C4, counterexample: the guard of connect() tests only the
client reference, which is still null while a first connect() is
suspended on its handshake; a second connect() entered in that window is
not a no-op — it creates a second transport, so two transports arise
from the sequence. -/
theorem overlapping_connect_two_transports_cex :
    (connectPhase1 (connectPhase1 initialState).1).1.transportsCreated = 2 ∧
    (connectPhase1 (connectPhase1 initialState).1).2 = some 1 := by
  refine ⟨rfl, rfl⟩

/-- Claim C4, amended: connect() is a no-op exactly when a client
reference is already held, which happens only after a successful
handshake (the ready state): there it returns immediately, creates no
transport and changes nothing; the connecting window is unguarded, and a
connect() entered before the first handshake resolves creates a second
transport. -/
theorem connect_noop_when_client_held (hs : HandshakeResult) (s : MCPState) (c : Nat)
    (h : s.client = some c) :
    connect hs s = (s, Except.ok ()) := by
  simp [connect, connectPhase1, connectPhase2, h]

/-- Witness for the amended claim C4, at the ready state. -/
theorem connect_noop_when_client_held_witness :
    connect (HandshakeResult.success none) readyState = (readyState, Except.ok ()) :=
  connect_noop_when_client_held (HandshakeResult.success none) readyState 0 (by decide)

/-- Claim C5, counterexample: at the concrete ready state, a
transport-initiated close clears only the connected flag while keeping
the client and transport references, whereas disconnect() discards both
references — the two teardowns produce different states. -/
theorem transport_close_not_disconnect_cex :
    (transportOnClose readyState).isConnected = false ∧
    (transportOnClose readyState).client = some 0 ∧
    (transportOnClose readyState).transport = some 0 ∧
    (disconnect CloseResult.success readyState).client = none ∧
    (disconnect CloseResult.success readyState).transport = none ∧
    transportOnClose readyState ≠ disconnect CloseResult.success readyState := by
  refine ⟨rfl, rfl, rfl, rfl, rfl, ?_⟩
  decide

/-- Claim C5, amended: a transport-initiated close runs a strictly
smaller teardown than disconnect(): it sets the connected flag false and
clears the session id, while the client and transport references, the
elicitation slot and the promise heap are all retained. -/
theorem transportOnClose_only_flags (s : MCPState) :
    (transportOnClose s).isConnected = false ∧
    (transportOnClose s).sessionId = none ∧
    (transportOnClose s).client = s.client ∧
    (transportOnClose s).transport = s.transport ∧
    (transportOnClose s).elicitationRequest = s.elicitationRequest ∧
    (transportOnClose s).elicitationResolver = s.elicitationResolver ∧
    (transportOnClose s).promises = s.promises := by
  refine ⟨rfl, rfl, rfl, rfl, rfl, rfl, rfl⟩

/-- Claim C6, counterexample: after a transport-initiated close the
session is no longer ready (the connected flag is false), yet callTool
does not reject with a not-connected error — the client reference
survived the close, so the guard passes and a tools/call request is
still issued over the transport. -/
theorem callTool_after_transport_close_cex :
    (transportOnClose readyState).isConnected = false ∧
    callTool "search" [("query", "x")] (transportOnClose readyState)
      = Except.ok { method := "tools/call",
                    params := ReqParams.nameArgs "search" [("query", "x")] } := by
  refine ⟨rfl, rfl⟩

/-- Claim C6, amended: each of the six protocol operations rejects
immediately with the not-connected error exactly when no client
reference is held (never connected, after a failed connect, or after
disconnect), and then nothing is sent; the guard tests the client
reference rather than the ready flag, so after a transport-initiated
close, which keeps the client reference, the operations still issue
their requests. -/
theorem requests_fail_fast_without_client (s : MCPState) (name uri : String)
    (args : List (String × String)) (h : s.client = none) :
    listTools s = Except.error MCPError.notConnected ∧
    listPrompts s = Except.error MCPError.notConnected ∧
    getPrompt name args s = Except.error MCPError.notConnected ∧
    listResources s = Except.error MCPError.notConnected ∧
    readResource uri s = Except.error MCPError.notConnected ∧
    callTool name args s = Except.error MCPError.notConnected := by
  refine ⟨?_, ?_, ?_, ?_, ?_, ?_⟩ <;>
    simp [listTools, listPrompts, getPrompt, listResources, readResource, callTool, h]

/-- Witness for the amended claim C6, at the mount state. -/
theorem requests_fail_fast_without_client_witness :
    listTools initialState = Except.error MCPError.notConnected ∧
    listPrompts initialState = Except.error MCPError.notConnected ∧
    getPrompt "search" [("query", "x")] initialState = Except.error MCPError.notConnected ∧
    listResources initialState = Except.error MCPError.notConnected ∧
    readResource "file.txt" initialState = Except.error MCPError.notConnected ∧
    callTool "search" [("query", "x")] initialState = Except.error MCPError.notConnected :=
  requests_fail_fast_without_client initialState "search" "file.txt" [("query", "x")]
    (by decide)

/-- Claim C7: the elicitation submit path is fail-open — whatever the
Ajv validation step does (accept, reject, or throw on a malformed
schema), handleSubmit lets no error escape and hands the raw form state
to onSubmit, so the decision delivered to the stored resolver is always
the accept decision carrying that content. -/
theorem handleSubmit_fail_open (outcome : AjvOutcome) (state : FormState) (s : MCPState) :
    handleSubmit outcome state = Except.ok state ∧
    elicitationFormSubmit outcome state s = modalDecide (ElicitResponse.accept state) s := by
  cases outcome <;> exact ⟨rfl, rfl⟩

/-- Claim C8: the resource-list-changed handler issues exactly one
resources/list follow-up request, lets no error escape even when that
request fails (the catch block only warns), and leaves the provider
state — in particular the connected flag — untouched. -/
theorem resource_list_changed_single_refresh (res : Except String Nat) (s : MCPState) :
    (resourceListChangedHandler res s).1 = s ∧
    (resourceListChangedHandler res s).2.1
      = [{ method := "resources/list", params := ReqParams.empty }] ∧
    (resourceListChangedHandler res s).2.2 = none := by
  cases res <;> exact ⟨rfl, rfl, rfl⟩

/-- Claim C9: with an active slot whose promise is pending, the first
decision resolves that promise with the decision and destroys the slot
(request and resolver cleared); a second decision is a no-op both
through the modal (no longer rendered, state unchanged) and through a
stale resolver closure firing again (the settled promise ignores the
second resolve), and the promise keeps the first decision, so no second
decision is ever delivered to the server. -/
theorem decide_idempotent_per_slot (s : MCPState) (r : ElicitRequest) (pid : Nat)
    (d d' : ElicitResponse)
    (hreq : s.elicitationRequest = some r)
    (hres : s.elicitationResolver = some pid)
    (hp : findPromise s.promises pid = some PromiseState.pending) :
    (modalDecide d s).elicitationRequest = none ∧
    (modalDecide d s).elicitationResolver = none ∧
    findPromise (modalDecide d s).promises pid = some (PromiseState.resolved d) ∧
    modalDecide d' (modalDecide d s) = modalDecide d s ∧
    elicitationResolverRun pid d' (modalDecide d s) = modalDecide d s ∧
    findPromise (elicitationResolverRun pid d' (modalDecide d s)).promises pid
      = some (PromiseState.resolved d) := by
  have hd : modalDecide d s = elicitationResolverRun pid d s := by
    unfold modalDecide
    rw [hreq, hres]
  have hidem : elicitationResolverRun pid d' (elicitationResolverRun pid d s)
      = elicitationResolverRun pid d s := by
    unfold elicitationResolverRun
    simp only [resolvePromise_idem]
  rw [hd]
  refine ⟨rfl, rfl, ?_, rfl, hidem, ?_⟩
  · exact findPromise_resolvePromise s.promises pid d hp
  · rw [hidem]
    exact findPromise_resolvePromise s.promises pid d hp

/-- Witness for claim C9, at the concrete active-slot state, deciding
cancel first and then attempting a duplicate accept decision. -/
theorem decide_idempotent_per_slot_witness :
    (modalDecide ElicitResponse.cancel slotState).elicitationRequest = none ∧
    (modalDecide ElicitResponse.cancel slotState).elicitationResolver = none ∧
    findPromise (modalDecide ElicitResponse.cancel slotState).promises 0
      = some (PromiseState.resolved ElicitResponse.cancel) ∧
    modalDecide (ElicitResponse.accept [("a", "b")])
        (modalDecide ElicitResponse.cancel slotState)
      = modalDecide ElicitResponse.cancel slotState ∧
    elicitationResolverRun 0 (ElicitResponse.accept [("a", "b")])
        (modalDecide ElicitResponse.cancel slotState)
      = modalDecide ElicitResponse.cancel slotState ∧
    findPromise (elicitationResolverRun 0 (ElicitResponse.accept [("a", "b")])
        (modalDecide ElicitResponse.cancel slotState)).promises 0
      = some (PromiseState.resolved ElicitResponse.cancel) :=
  decide_idempotent_per_slot slotState (ElicitRequest.mk "need-input") 0
    ElicitResponse.cancel (ElicitResponse.accept [("a", "b")])
    (by decide) (by decide) (by decide)

/-- Claim C10: a consumer outside any provider gets the default context:
null client and transport, a false connected flag, no session id,
connect and disconnect resolving to undefined, and every protocol
operation resolving to an empty object instead of rejecting. -/
theorem useMCP_default_context (name uri : String) (args : List (String × String)) :
    (useMCP none).client = none ∧
    (useMCP none).transport = none ∧
    (useMCP none).isConnected = false ∧
    (useMCP none).sessionId = none ∧
    (useMCP none).connect () = Except.ok JSVal.undefinedV ∧
    (useMCP none).disconnect () = Except.ok JSVal.undefinedV ∧
    (useMCP none).listTools () = Except.ok JSVal.emptyObject ∧
    (useMCP none).listPrompts () = Except.ok JSVal.emptyObject ∧
    (useMCP none).getPrompt name args = Except.ok JSVal.emptyObject ∧
    (useMCP none).listResources () = Except.ok JSVal.emptyObject ∧
    (useMCP none).readResource uri = Except.ok JSVal.emptyObject ∧
    (useMCP none).callTool name args = Except.ok JSVal.emptyObject := by
  refine ⟨rfl, rfl, rfl, rfl, rfl, rfl, rfl, rfl, rfl, rfl, rfl, rfl⟩

end MCP
